import Mathlib

/-!
# Verification of the browser-performance-test aggregation core

Shallow embedding of the aggregation/statistics pipeline of `benchmark.js`
(`src/index.js`): the `avg` helper, `calculateMetricsData`,
`calculateCumulativeStats` and `calculateDeltas`, together with theorems
settling the specification's claims about them.

Numbers are modelled as rationals (`ℚ`); the JavaScript value `null`
(and an absent field, which the code's `v != null` filter treats the
same way) is modelled as `Option.none`.
-/

namespace BrowserPerf

/-- One trial's raw measurements, as stored in the result tree
(`results[browser][jsLabel][url].cold/.warm` entries).  Warm samples, as
produced by the benchmark loop, leave `browser_start_time` absent (`none`). -/
structure RawSample where
  browser_start_time : Option ℚ
  fcp : Option ℚ
  dom_interactive : Option ℚ
  dom_content_loaded : Option ℚ
  load : Option ℚ
deriving Repr, DecidableEq

/-- The `{ cold: [...], warm: [...] }` leaf of the result tree. -/
structure CacheBuckets where
  cold : List RawSample
  warm : List RawSample
deriving Repr, DecidableEq

/-- `url → { cold, warm }` level, as an ordered key/value list
(mirroring JavaScript object insertion order and `Object.entries`). -/
abbrev SiteMap := List (String × CacheBuckets)

/-- `jsLabel → sites` level. -/
abbrev JsMap := List (String × SiteMap)

/-- `browser → jsBuckets` level: the whole `results` tree. -/
abbrev ResultTree := List (String × JsMap)

/-- `const avg = (arr) => (arr.length ? arr.reduce((a, b) => a + b, 0) / arr.length : null);` -/
def avg (arr : List ℚ) : Option ℚ :=
  if arr.length = 0 then none
  else some (arr.foldl (fun a b => a + b) 0 / (arr.length : ℚ))

/-- JavaScript's first-occurrence `String.prototype.replace` with a literal
pattern (the code's `url.replace('https://', '').replace('/', '')`). -/
def replaceFirst (s pat repl : String) : String :=
  match s.splitOn pat with
  | [] => s
  | [x] => x
  | x :: y :: rest => x ++ repl ++ String.intercalate pat (y :: rest)

/-- `` `${browser} ${jsLabel} ${url.replace('https://', '').replace('/', '')}` `` -/
def mkLabel (browser jsLabel url : String) : String :=
  browser ++ " " ++ jsLabel ++ " " ++ replaceFirst (replaceFirst url "https://" "") "/" ""

/-- One element of the `coldData` / `warmData` arrays built by
`calculateMetricsData`. -/
structure MetricRecord where
  label : String
  browser_start_time : Option ℚ
  fcp : Option ℚ
  dom_interactive : Option ℚ
  dom_content_loaded : Option ℚ
  load : Option ℚ
deriving Repr, DecidableEq

/-- `list.map(r => r.f).filter(v => v != null)` for a metric field `f`. -/
def presentVals (f : RawSample → Option ℚ) (l : List RawSample) : List ℚ :=
  (l.map f).filterMap id

/-- The `coldMetrics` object literal pushed for one `(browser, jsLabel, url)`
leaf by `calculateMetricsData`. -/
def coldRecord (label : String) (cb : CacheBuckets) : MetricRecord :=
  { label := label
    browser_start_time := avg (presentVals RawSample.browser_start_time cb.cold)
    fcp := avg (presentVals RawSample.fcp cb.cold)
    dom_interactive := avg (presentVals RawSample.dom_interactive cb.cold)
    dom_content_loaded := avg (presentVals RawSample.dom_content_loaded cb.cold)
    load := avg (presentVals RawSample.load cb.cold) }

/-- The `warmMetrics` object literal pushed for one `(browser, jsLabel, url)`
leaf by `calculateMetricsData`; the code hard-codes
`browser_start_time: null` for warm records. -/
def warmRecord (label : String) (cb : CacheBuckets) : MetricRecord :=
  { label := label
    browser_start_time := none
    fcp := avg (presentVals RawSample.fcp cb.warm)
    dom_interactive := avg (presentVals RawSample.dom_interactive cb.warm)
    dom_content_loaded := avg (presentVals RawSample.dom_content_loaded cb.warm)
    load := avg (presentVals RawSample.load cb.warm) }

/-- Return value of `calculateMetricsData`: `{ cold: coldData, warm: warmData }`. -/
structure MetricsData where
  cold : List MetricRecord
  warm : List MetricRecord
deriving Repr, DecidableEq

/-- `calculateMetricsData(data)` (src/index.js lines 389–424): the triple
`for (const [browser, jsBuckets] of Object.entries(data))` loop pushing one
cold and one warm record per `(browser, jsLabel, url)` leaf, in iteration
order. -/
def calculateMetricsData (data : ResultTree) : MetricsData :=
  { cold := data.flatMap fun bp =>
      bp.2.flatMap fun jp =>
        jp.2.map fun up => coldRecord (mkLabel bp.1 jp.1 up.1) up.2
    warm := data.flatMap fun bp =>
      bp.2.flatMap fun jp =>
        jp.2.map fun up => warmRecord (mkLabel bp.1 jp.1 up.1) up.2 }

/-- A `{ fcp, load }` group inside the per-browser cumulative statistics.
Both fields are written once, at the end of `calculateCumulativeStats`,
with the result of `avg`, which may be `null`. -/
structure FcpLoad where
  fcp : Option ℚ
  load : Option ℚ
deriving Repr, DecidableEq

/-- The per-browser object `stats[browser]` built by
`calculateCumulativeStats`. -/
structure BrowserStats where
  overall : FcpLoad
  jsOn : FcpLoad
  jsOff : FcpLoad
  cold : FcpLoad
  warm : FcpLoad
deriving Repr, DecidableEq

/-- `cacheBuckets.cold.map(r => r.fcp).filter(v => v != null)` for one leaf. -/
def coldFcpVals (cb : CacheBuckets) : List ℚ := presentVals RawSample.fcp cb.cold

/-- `cacheBuckets.cold.map(r => r.load).filter(v => v != null)` for one leaf. -/
def coldLoadVals (cb : CacheBuckets) : List ℚ := presentVals RawSample.load cb.cold

/-- `cacheBuckets.warm.map(r => r.fcp).filter(v => v != null)` for one leaf. -/
def warmFcpVals (cb : CacheBuckets) : List ℚ := presentVals RawSample.fcp cb.warm

/-- `cacheBuckets.warm.map(r => r.load).filter(v => v != null)` for one leaf. -/
def warmLoadVals (cb : CacheBuckets) : List ℚ := presentVals RawSample.load cb.warm

/-- The `allFcps` array accumulated by `calculateCumulativeStats` for one
browser: per `(jsLabel, url)` leaf it pushes `...coldFcpVals, ...warmFcpVals`. -/
def allFcps (jsBuckets : JsMap) : List ℚ :=
  jsBuckets.flatMap fun jp => jp.2.flatMap fun up => coldFcpVals up.2 ++ warmFcpVals up.2

/-- The `allLoads` array accumulated for one browser. -/
def allLoads (jsBuckets : JsMap) : List ℚ :=
  jsBuckets.flatMap fun jp => jp.2.flatMap fun up => coldLoadVals up.2 ++ warmLoadVals up.2

/-- The `coldFcps` array accumulated for one browser. -/
def coldFcps (jsBuckets : JsMap) : List ℚ :=
  jsBuckets.flatMap fun jp => jp.2.flatMap fun up => coldFcpVals up.2

/-- The `coldLoads` array accumulated for one browser. -/
def coldLoads (jsBuckets : JsMap) : List ℚ :=
  jsBuckets.flatMap fun jp => jp.2.flatMap fun up => coldLoadVals up.2

/-- The `warmFcps` array accumulated for one browser. -/
def warmFcps (jsBuckets : JsMap) : List ℚ :=
  jsBuckets.flatMap fun jp => jp.2.flatMap fun up => warmFcpVals up.2

/-- The `warmLoads` array accumulated for one browser. -/
def warmLoads (jsBuckets : JsMap) : List ℚ :=
  jsBuckets.flatMap fun jp => jp.2.flatMap fun up => warmLoadVals up.2

/-- The `jsOnFcps` array: only leaves under `jsLabel === 'JS_on'` contribute,
cold values before warm values per leaf. -/
def jsOnFcps (jsBuckets : JsMap) : List ℚ :=
  jsBuckets.flatMap fun jp =>
    if jp.1 = "JS_on" then jp.2.flatMap fun up => coldFcpVals up.2 ++ warmFcpVals up.2
    else []

/-- The `jsOnLoads` array. -/
def jsOnLoads (jsBuckets : JsMap) : List ℚ :=
  jsBuckets.flatMap fun jp =>
    if jp.1 = "JS_on" then jp.2.flatMap fun up => coldLoadVals up.2 ++ warmLoadVals up.2
    else []

/-- The `jsOffFcps` array: the code's `else` branch, i.e. every `jsLabel`
other than `'JS_on'` contributes here. -/
def jsOffFcps (jsBuckets : JsMap) : List ℚ :=
  jsBuckets.flatMap fun jp =>
    if jp.1 = "JS_on" then []
    else jp.2.flatMap fun up => coldFcpVals up.2 ++ warmFcpVals up.2

/-- The `jsOffLoads` array. -/
def jsOffLoads (jsBuckets : JsMap) : List ℚ :=
  jsBuckets.flatMap fun jp =>
    if jp.1 = "JS_on" then []
    else jp.2.flatMap fun up => coldLoadVals up.2 ++ warmLoadVals up.2

/-- The value `stats[browser]` holds after the loop body of
`calculateCumulativeStats` for one browser: every field of the pre-seeded
`{ fcp: 0, load: 0 }` groups is overwritten with `avg` of the
corresponding accumulated array. -/
def browserStats (jsBuckets : JsMap) : BrowserStats :=
  { overall := ⟨avg (allFcps jsBuckets), avg (allLoads jsBuckets)⟩
    jsOn := ⟨avg (jsOnFcps jsBuckets), avg (jsOnLoads jsBuckets)⟩
    jsOff := ⟨avg (jsOffFcps jsBuckets), avg (jsOffLoads jsBuckets)⟩
    cold := ⟨avg (coldFcps jsBuckets), avg (coldLoads jsBuckets)⟩
    warm := ⟨avg (warmFcps jsBuckets), avg (warmLoads jsBuckets)⟩ }

/-- `calculateCumulativeStats(data)` (src/index.js lines 427–488): for each
`[browser, jsBuckets]` of `Object.entries(data)`, sets `stats[browser]`
to the cumulative statistics over that browser's samples. -/
def calculateCumulativeStats (data : ResultTree) : List (String × BrowserStats) :=
  data.map fun bp => (bp.1, browserStats bp.2)

/-- The shape `calculateDeltas` requires of its argument: it dereferences
exactly `stats.Chrome` and `stats.Firefox`. -/
structure CumulativeStats where
  Chrome : BrowserStats
  Firefox : BrowserStats
deriving Repr, DecidableEq

/-- JavaScript's binary `-` applied to two `number | null` operands:
`ToNumber(null) = 0`, so a `null` operand is coerced to `0` and the
result is always a number. -/
def jsSub (a b : Option ℚ) : ℚ := a.getD 0 - b.getD 0

/-- One `{ fcp, load }` delta pair; the subtraction always yields a number. -/
structure DeltaPair where
  fcp : ℚ
  load : ℚ
deriving Repr, DecidableEq

/-- The per-browser part of the `jsOff` / `warmCache` comparisons. -/
structure BrowserDeltas where
  Chrome : DeltaPair
  Firefox : DeltaPair
deriving Repr, DecidableEq

/-- Return value of `calculateDeltas`: exactly the three named comparisons. -/
structure Deltas where
  jsOff : BrowserDeltas
  warmCache : BrowserDeltas
  firefoxVsChrome : DeltaPair
deriving Repr, DecidableEq

/-- `calculateDeltas(stats)` (src/index.js lines 491–518). -/
def calculateDeltas (stats : CumulativeStats) : Deltas :=
  { jsOff :=
      { Chrome := ⟨jsSub stats.Chrome.jsOff.fcp stats.Chrome.jsOn.fcp,
                   jsSub stats.Chrome.jsOff.load stats.Chrome.jsOn.load⟩
        Firefox := ⟨jsSub stats.Firefox.jsOff.fcp stats.Firefox.jsOn.fcp,
                    jsSub stats.Firefox.jsOff.load stats.Firefox.jsOn.load⟩ }
    warmCache :=
      { Chrome := ⟨jsSub stats.Chrome.warm.fcp stats.Chrome.cold.fcp,
                   jsSub stats.Chrome.warm.load stats.Chrome.cold.load⟩
        Firefox := ⟨jsSub stats.Firefox.warm.fcp stats.Firefox.cold.fcp,
                    jsSub stats.Firefox.warm.load stats.Firefox.cold.load⟩ }
    firefoxVsChrome :=
      ⟨jsSub stats.Firefox.overall.fcp stats.Chrome.overall.fcp,
       jsSub stats.Firefox.overall.load stats.Chrome.overall.load⟩ }

/-- State-passing translation of `calculateMetricsData`: the result tree is
threaded through every loop iteration as part of the fold state (standing for
the heap the JavaScript loops read from), and each iteration — translated
statement by statement — only appends the freshly built cold/warm records to
the accumulator arrays; no statement of the source body writes into `data`. -/
def calculateMetricsDataSt (data : ResultTree) : MetricsData × ResultTree :=
  let s0 : List MetricRecord × List MetricRecord × ResultTree := ([], [], data)
  let s1 := s0.2.2.foldl
    (fun s bp =>
      bp.2.foldl
        (fun s2 jp =>
          jp.2.foldl
            (fun s3 up =>
              (s3.1 ++ [coldRecord (mkLabel bp.1 jp.1 up.1) up.2],
               s3.2.1 ++ [warmRecord (mkLabel bp.1 jp.1 up.1) up.2],
               s3.2.2))
            s2)
        s)
    s0
  (⟨s1.1, s1.2.1⟩, s1.2.2)

/-- State-passing translation of `calculateCumulativeStats`: the tree is
threaded through the per-browser loop; each iteration appends the entry
`stats[browser] = …` (whose value `browserStats` models the read-only
per-browser accumulation) and leaves the tree component untouched, since no
statement of the source body assigns into `data`. -/
def calculateCumulativeStatsSt (data : ResultTree) :
    List (String × BrowserStats) × ResultTree :=
  let s := data.foldl
    (fun (s : List (String × BrowserStats) × ResultTree) bp =>
      (s.1 ++ [(bp.1, browserStats bp.2)], s.2))
    ([], data)
  (s.1, s.2)

/-- State-passing translation of `calculateDeltas`: the body is a single
`return` of a fresh object literal built from reads of `stats`, so the
input is returned unchanged alongside the result. -/
def calculateDeltasSt (stats : CumulativeStats) : Deltas × CumulativeStats :=
  (calculateDeltas stats, stats)

/-- Specification predicate for one metric field of one scenario record:
`result` is the arithmetic mean of `f` over exactly the samples where `f`
is non-null (null samples excluded from numerator and denominator), and is
`none` precisely when `f` is null in every sample. -/
def MeansOverPresent (samples : List RawSample) (f : RawSample → Option ℚ)
    (result : Option ℚ) : Prop :=
  (presentVals f samples = [] ↔ ∀ r ∈ samples, f r = none) ∧
  (presentVals f samples = [] → result = none) ∧
  (presentVals f samples ≠ [] →
    result = some ((presentVals f samples).sum / ((presentVals f samples).length : ℚ)))

/-- A cold-cache sample with every metric present. -/
def sampleA : RawSample := ⟨some 5, some 100, some 150, some 180, some 200⟩

/-- A cold-cache sample whose FCP and DOMContentLoaded entries were unavailable. -/
def sampleB : RawSample := ⟨none, some 300, some 170, none, some 240⟩

/-- A warm-cache sample as the collector produces it: no `browser_start_time`. -/
def sampleWarm : RawSample := ⟨none, some 50, some 60, some 70, some 80⟩

/-- A (hypothetical) warm-cache sample that carries a numeric
`browser_start_time`, exercising the hard-coded `null` in warm records. -/
def sampleWarmBst : RawSample := ⟨some 7, some 50, none, none, some 80⟩

/-- A small concrete leaf: two cold samples, one warm sample. -/
def demoBuckets : CacheBuckets := ⟨[sampleA, sampleB], [sampleWarm]⟩

/-- A one-browser, one-JS-state, one-URL tree (in particular it is missing
the `Firefox` browser key, the `JS_off` key and three configured URLs). -/
def demoTree : ResultTree :=
  [("Chrome", [("JS_on", [("https://github.com/", demoBuckets)])])]

/-- A tree whose single warm sample carries a numeric `browser_start_time`. -/
def treeWarmBst : ResultTree :=
  [("Chrome", [("JS_on", [("https://github.com/", ⟨[], [sampleWarmBst]⟩)])])]

/-- Shorthand for a fully defined `{ fcp, load }` group. -/
def mkFL (a b : ℚ) : FcpLoad := ⟨some a, some b⟩

/-- Cumulative statistics in which every pool mean is defined. -/
def statsAllDefined : CumulativeStats :=
  { Chrome := ⟨mkFL 10 20, mkFL 30 40, mkFL 50 60, mkFL 70 80, mkFL 90 100⟩
    Firefox := ⟨mkFL 11 21, mkFL 31 41, mkFL 51 61, mkFL 71 81, mkFL 91 101⟩ }

/-- Cumulative statistics matching the spec's §8 example: Chrome's cold FCP
mean is 1000 and its warm FCP mean is undefined (no warm samples collected);
all other pools are defined. -/
def statsNullWarm : CumulativeStats :=
  { Chrome := ⟨mkFL 1000 1000, mkFL 1000 1000, mkFL 1000 1000, mkFL 1000 1000,
               ⟨none, some 900⟩⟩
    Firefox := ⟨mkFL 11 21, mkFL 31 41, mkFL 51 61, mkFL 71 81, mkFL 91 101⟩ }

/-! ## Helper lemmas -/

theorem avg_nil : avg [] = none := by
  simp [avg]

theorem avg_eq_sum_div (l : List ℚ) (h : l ≠ []) :
    avg l = some (l.sum / (l.length : ℚ)) := by
  have hf : l.foldl (fun a b => a + b) 0 = l.sum := by
    simp [List.sum_eq_foldl]
  rw [avg, if_neg (by simpa [List.length_eq_zero] using h), hf]

theorem avg_perm {l l' : List ℚ} (h : l.Perm l') : avg l = avg l' := by
  rcases eq_or_ne l [] with rfl | hne
  · rw [h.symm.eq_nil]
  · have hne' : l' ≠ [] := fun e => hne (by rw [e] at h; exact h.eq_nil)
    rw [avg_eq_sum_div l hne, avg_eq_sum_div l' hne', h.sum_eq, h.length_eq]

theorem presentVals_perm (f : RawSample → Option ℚ) {l l' : List RawSample}
    (h : l.Perm l') : (presentVals f l).Perm (presentVals f l') :=
  (h.map f).filterMap id

theorem presentVals_eq_nil_iff (f : RawSample → Option ℚ) (l : List RawSample) :
    presentVals f l = [] ↔ ∀ r ∈ l, f r = none := by
  simp [presentVals, List.filterMap_eq_nil_iff]

theorem avg_meansOverPresent (samples : List RawSample) (f : RawSample → Option ℚ) :
    MeansOverPresent samples f (avg (presentVals f samples)) := by
  refine ⟨presentVals_eq_nil_iff f samples, ?_, ?_⟩
  · intro h
    rw [h, avg_nil]
  · intro h
    exact avg_eq_sum_div _ h

theorem flatMap_append_perm {α β : Type*} (l : List α) (f g : α → List β) :
    (l.flatMap fun x => f x ++ g x).Perm (l.flatMap f ++ l.flatMap g) := by
  induction l with
  | nil => simp
  | cons a t ih =>
      simp only [List.flatMap_cons]
      refine ((ih.append_left (f a ++ g a)).trans ?_)
      simp only [List.append_assoc]
      exact (List.perm_append_comm_assoc (g a) (t.flatMap f) (t.flatMap g)).append_left (f a)

theorem flatMap_congr_perm {α β : Type*} {l : List α} {f g : α → List β}
    (h : ∀ x ∈ l, (f x).Perm (g x)) : (l.flatMap f).Perm (l.flatMap g) := by
  induction l with
  | nil => simp
  | cons a t ih =>
      simp only [List.flatMap_cons]
      exact (h a (by simp)).append (ih fun x hx => h x (by simp [hx]))

theorem nested_append_perm {α β γ : Type*} (l : List α) (s : α → List β)
    (f g : β → List γ) :
    (l.flatMap fun x => (s x).flatMap fun y => f y ++ g y).Perm
      ((l.flatMap fun x => (s x).flatMap f) ++ (l.flatMap fun x => (s x).flatMap g)) :=
  (flatMap_congr_perm fun x _ => flatMap_append_perm (s x) f g).trans
    (flatMap_append_perm l _ _)

theorem foldl_triple {α β γ : Type*} (l : List α) (f g : α → List β)
    (c w : List β) (t : γ) :
    l.foldl (fun s x => (s.1 ++ f x, s.2.1 ++ g x, s.2.2)) (c, w, t)
      = (c ++ l.flatMap f, w ++ l.flatMap g, t) := by
  induction l generalizing c w with
  | nil => simp
  | cons a u ih => simp [List.flatMap_cons, ih]

theorem foldl_pair {α β γ : Type*} (l : List α) (f : α → List β)
    (c : List β) (t : γ) :
    l.foldl (fun (s : List β × γ) x => (s.1 ++ f x, s.2)) (c, t)
      = (c ++ l.flatMap f, t) := by
  induction l generalizing c with
  | nil => simp
  | cons a u ih => simp [List.flatMap_cons, ih]

theorem flatMap_singleton_map {α β : Type*} (l : List α) (f : α → β) :
    (l.flatMap fun x => [f x]) = l.map f := by
  induction l with
  | nil => rfl
  | cons a t ih => simp [List.flatMap_cons, ih]

/-! ## Claim theorems -/

/-- C4: `avg` applied to the empty sequence returns `null` (`none`) — never 0
and, being a total function, no exception escapes; applied to any non-empty
sequence it returns the arithmetic mean, sum divided by length. -/
theorem avg_empty_null_nonempty_mean :
    avg [] = none ∧ ∀ l : List ℚ, l ≠ [] → avg l = some (l.sum / (l.length : ℚ)) :=
  ⟨avg_nil, avg_eq_sum_div⟩

/-- Witness for C4 at the concrete input `[2, 4]`. -/
theorem avg_empty_null_nonempty_mean_witness : avg [(2 : ℚ), 4] = some 3 := by
  rw [avg_empty_null_nonempty_mean.2 [(2 : ℚ), 4] (List.cons_ne_nil _ _)]
  norm_num

/-- C7: for every non-empty sequence, `avg` returns a value lying between any
lower bound and any upper bound of the sequence — in particular between its
minimum and its maximum, inclusive — and `avg [x] = x` for any single `x`. -/
theorem avg_between_bounds :
    (∀ (l : List ℚ) (lo hi : ℚ), l ≠ [] → (∀ x ∈ l, lo ≤ x ∧ x ≤ hi) →
      ∃ m, avg l = some m ∧ lo ≤ m ∧ m ≤ hi) ∧
    ∀ x : ℚ, avg [x] = some x := by
  constructor
  · intro l lo hi hne hb
    refine ⟨l.sum / (l.length : ℚ), avg_eq_sum_div l hne, ?_, ?_⟩
    all_goals
      have hlen : 0 < (l.length : ℚ) := by
        have h0 : l.length ≠ 0 := by simpa [List.length_eq_zero] using hne
        exact_mod_cast Nat.pos_of_ne_zero h0
    · rw [le_div_iff₀ hlen]
      have hlo := List.card_nsmul_le_sum l lo fun x hx => (hb x hx).1
      rw [nsmul_eq_mul] at hlo
      linarith
    · rw [div_le_iff₀ hlen]
      have hhi := List.sum_le_card_nsmul l hi fun x hx => (hb x hx).2
      rw [nsmul_eq_mul] at hhi
      linarith
  · intro x
    rw [avg_eq_sum_div [x] (List.cons_ne_nil _ _)]
    norm_num

/-- Witness for C7 at the concrete input `[1, 5]` with bounds 1 and 5. -/
theorem avg_between_bounds_witness :
    (∃ m, avg [(1 : ℚ), 5] = some m ∧ 1 ≤ m ∧ m ≤ 5) ∧ avg [(7 : ℚ)] = some 7 :=
  ⟨avg_between_bounds.1 [(1 : ℚ), 5] 1 5 (List.cons_ne_nil _ _)
    (by norm_num [List.forall_mem_cons]),
   avg_between_bounds.2 7⟩

/-- C1 (code evaluated at the failing input): with Chrome's warm FCP mean
undefined and its cold FCP mean 1000, `calculateDeltas` returns the number
−1000 for the warm-cache FCP delta — JavaScript's `-` coerces the `null`
operand to 0 — instead of the undefined delta the specification requires. -/
theorem calculateDeltas_coerces_null_to_zero :
    statsNullWarm.Chrome.warm.fcp = none ∧
    statsNullWarm.Chrome.cold.fcp = some 1000 ∧
    (calculateDeltas statsNullWarm).warmCache.Chrome.fcp = -1000 := by
  refine ⟨rfl, rfl, ?_⟩
  simp [calculateDeltas, jsSub, statsNullWarm, mkFL]

/-- C5: with defined operands, the three named comparisons have exactly the
signed definitions the specification gives: `jsOff` is the JS_off mean minus
the JS_on mean per browser, `warmCache` is the warm mean minus the cold mean
per browser, and `firefoxVsChrome` is the Firefox overall mean minus the
Chrome overall mean, each for both FCP and load. -/
theorem calculateDeltas_signed_definitions :
    ∀ (stats : CumulativeStats) (a b : ℚ),
      (stats.Chrome.jsOff.fcp = some a → stats.Chrome.jsOn.fcp = some b →
        (calculateDeltas stats).jsOff.Chrome.fcp = a - b) ∧
      (stats.Chrome.jsOff.load = some a → stats.Chrome.jsOn.load = some b →
        (calculateDeltas stats).jsOff.Chrome.load = a - b) ∧
      (stats.Firefox.jsOff.fcp = some a → stats.Firefox.jsOn.fcp = some b →
        (calculateDeltas stats).jsOff.Firefox.fcp = a - b) ∧
      (stats.Firefox.jsOff.load = some a → stats.Firefox.jsOn.load = some b →
        (calculateDeltas stats).jsOff.Firefox.load = a - b) ∧
      (stats.Chrome.warm.fcp = some a → stats.Chrome.cold.fcp = some b →
        (calculateDeltas stats).warmCache.Chrome.fcp = a - b) ∧
      (stats.Chrome.warm.load = some a → stats.Chrome.cold.load = some b →
        (calculateDeltas stats).warmCache.Chrome.load = a - b) ∧
      (stats.Firefox.warm.fcp = some a → stats.Firefox.cold.fcp = some b →
        (calculateDeltas stats).warmCache.Firefox.fcp = a - b) ∧
      (stats.Firefox.warm.load = some a → stats.Firefox.cold.load = some b →
        (calculateDeltas stats).warmCache.Firefox.load = a - b) ∧
      (stats.Firefox.overall.fcp = some a → stats.Chrome.overall.fcp = some b →
        (calculateDeltas stats).firefoxVsChrome.fcp = a - b) ∧
      (stats.Firefox.overall.load = some a → stats.Chrome.overall.load = some b →
        (calculateDeltas stats).firefoxVsChrome.load = a - b) := by
  intro stats a b
  refine ⟨?_, ?_, ?_, ?_, ?_, ?_, ?_, ?_, ?_, ?_⟩ <;>
    · intro h1 h2
      simp [calculateDeltas, jsSub, h1, h2]

/-- Witness for C5 at `statsAllDefined`, covering one conjunct from each of
the three comparisons. -/
theorem calculateDeltas_signed_definitions_witness :
    (calculateDeltas statsAllDefined).jsOff.Chrome.fcp = 50 - 30 ∧
    (calculateDeltas statsAllDefined).warmCache.Chrome.fcp = 90 - 70 ∧
    (calculateDeltas statsAllDefined).firefoxVsChrome.fcp = 11 - 10 :=
  ⟨(calculateDeltas_signed_definitions statsAllDefined 50 30).1 rfl rfl,
   ((calculateDeltas_signed_definitions statsAllDefined 90 70).2.2.2.2).1 rfl rfl,
   ((calculateDeltas_signed_definitions statsAllDefined 11 10).2.2.2.2.2.2.2.2).1 rfl rfl⟩

/-- C10: every warm record produced by `calculateMetricsData` has
`browser_start_time = null`, unconditionally — the code hard-codes it. -/
theorem warm_browser_start_time_null :
    ∀ (data : ResultTree) (r : MetricRecord),
      r ∈ (calculateMetricsData data).warm → r.browser_start_time = none := by
  intro data r hr
  simp only [calculateMetricsData, List.mem_flatMap, List.mem_map] at hr
  obtain ⟨bp, _, jp, _, up, _, rfl⟩ := hr
  rfl

/-- Witness for C10: a tree whose only (warm) sample carries a numeric
`browser_start_time`, yet the produced warm record's field is `null`. -/
theorem warm_browser_start_time_null_witness :
    (warmRecord (mkLabel "Chrome" "JS_on" "https://github.com/")
        ⟨[], [sampleWarmBst]⟩).browser_start_time = none :=
  warm_browser_start_time_null treeWarmBst _
    (by simp [calculateMetricsData, treeWarmBst])

/-- C3: for every leaf of the tree, `calculateMetricsData` emits one cold and
one warm record whose every metric field is the arithmetic mean of that field
over exactly the samples where the field is non-null (null samples excluded
from numerator and denominator), and is `null` precisely when the field is
null in every sample of the leaf.  For the warm record's `browser_start_time`
this holds under the data-model invariant that warm samples carry no
`browser_start_time` (the code hard-codes `null` there). -/
theorem calculateMetricsData_leaf_averages :
    ∀ (data : ResultTree) (b : String) (jsB : JsMap) (js : String) (sites : SiteMap)
      (u : String) (cb : CacheBuckets),
      (b, jsB) ∈ data → (js, sites) ∈ jsB → (u, cb) ∈ sites →
      (coldRecord (mkLabel b js u) cb ∈ (calculateMetricsData data).cold ∧
       warmRecord (mkLabel b js u) cb ∈ (calculateMetricsData data).warm) ∧
      (MeansOverPresent cb.cold RawSample.browser_start_time
          (coldRecord (mkLabel b js u) cb).browser_start_time ∧
       MeansOverPresent cb.cold RawSample.fcp (coldRecord (mkLabel b js u) cb).fcp ∧
       MeansOverPresent cb.cold RawSample.dom_interactive
          (coldRecord (mkLabel b js u) cb).dom_interactive ∧
       MeansOverPresent cb.cold RawSample.dom_content_loaded
          (coldRecord (mkLabel b js u) cb).dom_content_loaded ∧
       MeansOverPresent cb.cold RawSample.load (coldRecord (mkLabel b js u) cb).load) ∧
      (MeansOverPresent cb.warm RawSample.fcp (warmRecord (mkLabel b js u) cb).fcp ∧
       MeansOverPresent cb.warm RawSample.dom_interactive
          (warmRecord (mkLabel b js u) cb).dom_interactive ∧
       MeansOverPresent cb.warm RawSample.dom_content_loaded
          (warmRecord (mkLabel b js u) cb).dom_content_loaded ∧
       MeansOverPresent cb.warm RawSample.load (warmRecord (mkLabel b js u) cb).load) ∧
      ((∀ r ∈ cb.warm, r.browser_start_time = none) →
        MeansOverPresent cb.warm RawSample.browser_start_time
          (warmRecord (mkLabel b js u) cb).browser_start_time) := by
  intro data b jsB js sites u cb hb hj hu
  refine ⟨⟨?_, ?_⟩, ⟨?_, ?_, ?_, ?_, ?_⟩, ⟨?_, ?_, ?_, ?_⟩, ?_⟩
  · simp only [calculateMetricsData, List.mem_flatMap, List.mem_map]
    exact ⟨(b, jsB), hb, (js, sites), hj, (u, cb), hu, rfl⟩
  · simp only [calculateMetricsData, List.mem_flatMap, List.mem_map]
    exact ⟨(b, jsB), hb, (js, sites), hj, (u, cb), hu, rfl⟩
  · exact avg_meansOverPresent cb.cold RawSample.browser_start_time
  · exact avg_meansOverPresent cb.cold RawSample.fcp
  · exact avg_meansOverPresent cb.cold RawSample.dom_interactive
  · exact avg_meansOverPresent cb.cold RawSample.dom_content_loaded
  · exact avg_meansOverPresent cb.cold RawSample.load
  · exact avg_meansOverPresent cb.warm RawSample.fcp
  · exact avg_meansOverPresent cb.warm RawSample.dom_interactive
  · exact avg_meansOverPresent cb.warm RawSample.dom_content_loaded
  · exact avg_meansOverPresent cb.warm RawSample.load
  · intro h
    refine ⟨presentVals_eq_nil_iff _ _, fun _ => rfl, fun hne => ?_⟩
    exact absurd ((presentVals_eq_nil_iff _ _).2 h) hne

/-- Witness for C3 at the concrete tree `demoTree`. -/
theorem calculateMetricsData_leaf_averages_witness :
    coldRecord (mkLabel "Chrome" "JS_on" "https://github.com/") demoBuckets
      ∈ (calculateMetricsData demoTree).cold ∧
    MeansOverPresent demoBuckets.cold RawSample.fcp
      (coldRecord (mkLabel "Chrome" "JS_on" "https://github.com/") demoBuckets).fcp :=
  have h := calculateMetricsData_leaf_averages demoTree "Chrome"
    [("JS_on", [("https://github.com/", demoBuckets)])] "JS_on"
    [("https://github.com/", demoBuckets)] "https://github.com/" demoBuckets
    (by simp [demoTree]) (by simp) (by simp)
  ⟨h.1.1, h.2.1.2.1⟩

/-- C2: for every browser in the tree, the `overall` FCP and load means
computed by `calculateCumulativeStats` equal `avg` of the single flattened
pool formed by concatenating the browser's cold pool and warm pool across
every JS state and URL — pooling then averaging. -/
theorem cumulativeStats_overall_pooled :
    ∀ (data : ResultTree) (b : String) (st : BrowserStats),
      (b, st) ∈ calculateCumulativeStats data →
      ∃ jsB, (b, jsB) ∈ data ∧
        st.overall.fcp = avg (coldFcps jsB ++ warmFcps jsB) ∧
        st.overall.load = avg (coldLoads jsB ++ warmLoads jsB) := by
  intro data b st hmem
  simp only [calculateCumulativeStats, List.mem_map, Prod.mk.injEq] at hmem
  obtain ⟨⟨b', jsB⟩, hbp, h1, h2⟩ := hmem
  subst h1
  subst h2
  refine ⟨jsB, hbp, ?_, ?_⟩
  · exact avg_perm
      (nested_append_perm jsB (fun jp => jp.2)
        (fun up => coldFcpVals up.2) (fun up => warmFcpVals up.2))
  · exact avg_perm
      (nested_append_perm jsB (fun jp => jp.2)
        (fun up => coldLoadVals up.2) (fun up => warmLoadVals up.2))

/-- Witness for C2 at the concrete tree `demoTree`. -/
theorem cumulativeStats_overall_pooled_witness :
    ∃ jsB, ("Chrome", jsB) ∈ demoTree ∧
      (browserStats [("JS_on", [("https://github.com/", demoBuckets)])]).overall.fcp
        = avg (coldFcps jsB ++ warmFcps jsB) ∧
      (browserStats [("JS_on", [("https://github.com/", demoBuckets)])]).overall.load
        = avg (coldLoads jsB ++ warmLoads jsB) :=
  cumulativeStats_overall_pooled demoTree "Chrome"
    (browserStats [("JS_on", [("https://github.com/", demoBuckets)])])
    (by simp [calculateCumulativeStats, demoTree])

/-- C8: `calculateMetricsData` is invariant under permutation of the trial
order inside any single `(browser, jsState, url, cacheState)` leaf: replacing
one leaf's cold and warm sample lists by permutations of themselves leaves
the whole computed output unchanged. -/
theorem metricsData_leaf_perm_invariant :
    ∀ (A B : ResultTree) (b : String) (jsPre jsPost : JsMap) (js : String)
      (sPre sPost : SiteMap) (u : String) (cb cb' : CacheBuckets),
      cb.cold.Perm cb'.cold → cb.warm.Perm cb'.warm →
      calculateMetricsData
          (A ++ (b, jsPre ++ (js, sPre ++ (u, cb) :: sPost) :: jsPost) :: B)
        = calculateMetricsData
          (A ++ (b, jsPre ++ (js, sPre ++ (u, cb') :: sPost) :: jsPost) :: B) := by
  intro A B b jsPre jsPost js sPre sPost u cb cb' hc hw
  have hcold : coldRecord (mkLabel b js u) cb = coldRecord (mkLabel b js u) cb' := by
    unfold coldRecord
    rw [avg_perm (presentVals_perm RawSample.browser_start_time hc),
        avg_perm (presentVals_perm RawSample.fcp hc),
        avg_perm (presentVals_perm RawSample.dom_interactive hc),
        avg_perm (presentVals_perm RawSample.dom_content_loaded hc),
        avg_perm (presentVals_perm RawSample.load hc)]
  have hwarm : warmRecord (mkLabel b js u) cb = warmRecord (mkLabel b js u) cb' := by
    unfold warmRecord
    rw [avg_perm (presentVals_perm RawSample.fcp hw),
        avg_perm (presentVals_perm RawSample.dom_interactive hw),
        avg_perm (presentVals_perm RawSample.dom_content_loaded hw),
        avg_perm (presentVals_perm RawSample.load hw)]
  simp only [calculateMetricsData, List.flatMap_append, List.flatMap_cons,
    List.map_append, List.map_cons, hcold, hwarm]

/-- Witness for C8: swapping the two cold samples of `demoTree`'s single
leaf leaves the computed metrics data unchanged. -/
theorem metricsData_leaf_perm_invariant_witness :
    calculateMetricsData
        [("Chrome", [("JS_on", [("https://github.com/", demoBuckets)])])]
      = calculateMetricsData
        [("Chrome", [("JS_on",
            [("https://github.com/",
              (⟨[sampleB, sampleA], [sampleWarm]⟩ : CacheBuckets))])])] := by
  have h := metricsData_leaf_perm_invariant [] [] "Chrome" [] [] "JS_on" [] []
    "https://github.com/" demoBuckets ⟨[sampleB, sampleA], [sampleWarm]⟩
    (List.Perm.swap sampleB sampleA []) (List.Perm.refl _)
  simpa [demoBuckets] using h

/-- C6 counterexample: on the concrete tree `demoTree`, which is missing the
`Firefox` browser key (as well as `JS_off` and three configured URLs), both
aggregator functions raise no error and return ordinary output computed from
the remaining keys only — refuting "fails fast with a descriptive structural
error rather than silently skipping". -/
theorem aggregator_no_error_on_missing_keys :
    (calculateCumulativeStats demoTree).map Prod.fst = ["Chrome"] ∧
    (calculateMetricsData demoTree).cold.length = 1 ∧
    (calculateMetricsData demoTree).warm.length = 1 :=
  ⟨rfl, rfl, rfl⟩

/-- C6 amended: on a `ResultTree` missing an expected browser, JS-state or
URL key, the aggregator silently skips the missing key: it produces exactly
one output entry per present key (no entry for an absent browser) and its
output on the remaining entries is unaffected by the removal. -/
theorem aggregator_skips_missing_keys :
    ∀ (data : ResultTree) (b : String) (pre post : ResultTree),
      (calculateCumulativeStats data).map Prod.fst = data.map Prod.fst ∧
      ((∀ jsB, (b, jsB) ∉ data) → ∀ st, (b, st) ∉ calculateCumulativeStats data) ∧
      calculateCumulativeStats (pre ++ post)
        = calculateCumulativeStats pre ++ calculateCumulativeStats post ∧
      (calculateMetricsData (pre ++ post)).cold
        = (calculateMetricsData pre).cold ++ (calculateMetricsData post).cold ∧
      (calculateMetricsData (pre ++ post)).warm
        = (calculateMetricsData pre).warm ++ (calculateMetricsData post).warm := by
  intro data b pre post
  refine ⟨?_, ?_, ?_, ?_, ?_⟩
  · simp [calculateCumulativeStats]
  · intro h st hmem
    simp only [calculateCumulativeStats, List.mem_map, Prod.mk.injEq] at hmem
    obtain ⟨⟨b', jsB⟩, hbp, h1, _⟩ := hmem
    subst h1
    exact h jsB hbp
  · simp [calculateCumulativeStats]
  · simp [calculateMetricsData, List.flatMap_append]
  · simp [calculateMetricsData, List.flatMap_append]

/-- Witness for C6's amended claim: `demoTree` has no `Firefox` entry, so
the cumulative statistics contain no `Firefox` entry either. -/
theorem aggregator_skips_missing_keys_witness :
    ("Firefox", browserStats []) ∉ calculateCumulativeStats demoTree :=
  (aggregator_skips_missing_keys demoTree "Firefox" [] []).2.1
    (by simp [demoTree]) (browserStats [])

/-- C9: the three aggregation functions are pure.  In the state-passing
translations — where the result tree (respectively the cumulative-stats
value) is threaded through every loop iteration as the heap the code reads
from — each function returns its input structurally unchanged alongside a
result that coincides with the plain functional translation of the same
source, i.e. depends only on that input. -/
theorem aggregation_functions_pure :
    ∀ (d : ResultTree) (s : CumulativeStats),
      calculateMetricsDataSt d = (calculateMetricsData d, d) ∧
      calculateCumulativeStatsSt d = (calculateCumulativeStats d, d) ∧
      calculateDeltasSt s = (calculateDeltas s, s) := by
  intro d s
  refine ⟨?_, ?_, rfl⟩
  · unfold calculateMetricsDataSt
    have hinner : ∀ (bp : String × JsMap)
        (s2 : List MetricRecord × List MetricRecord × ResultTree)
        (jp : String × SiteMap),
        jp.2.foldl
          (fun s3 up =>
            (s3.1 ++ [coldRecord (mkLabel bp.1 jp.1 up.1) up.2],
             s3.2.1 ++ [warmRecord (mkLabel bp.1 jp.1 up.1) up.2],
             s3.2.2)) s2
        = (s2.1 ++ jp.2.map fun up => coldRecord (mkLabel bp.1 jp.1 up.1) up.2,
           s2.2.1 ++ jp.2.map fun up => warmRecord (mkLabel bp.1 jp.1 up.1) up.2,
           s2.2.2) := by
      intro bp s2 jp
      obtain ⟨c, w, t⟩ := s2
      rw [foldl_triple, flatMap_singleton_map, flatMap_singleton_map]
    have hmid : ∀ (ss : List MetricRecord × List MetricRecord × ResultTree)
        (bp : String × JsMap),
        bp.2.foldl
          (fun s2 jp =>
            jp.2.foldl
              (fun s3 up =>
                (s3.1 ++ [coldRecord (mkLabel bp.1 jp.1 up.1) up.2],
                 s3.2.1 ++ [warmRecord (mkLabel bp.1 jp.1 up.1) up.2],
                 s3.2.2)) s2) ss
        = (ss.1 ++ bp.2.flatMap fun jp =>
              jp.2.map fun up => coldRecord (mkLabel bp.1 jp.1 up.1) up.2,
           ss.2.1 ++ bp.2.flatMap fun jp =>
              jp.2.map fun up => warmRecord (mkLabel bp.1 jp.1 up.1) up.2,
           ss.2.2) := by
      intro ss bp
      obtain ⟨c, w, t⟩ := ss
      have hstep :
          (fun (s2 : List MetricRecord × List MetricRecord × ResultTree)
               (jp : String × SiteMap) =>
            jp.2.foldl
              (fun s3 up =>
                (s3.1 ++ [coldRecord (mkLabel bp.1 jp.1 up.1) up.2],
                 s3.2.1 ++ [warmRecord (mkLabel bp.1 jp.1 up.1) up.2],
                 s3.2.2)) s2)
          = fun s2 jp =>
              (s2.1 ++ jp.2.map fun up => coldRecord (mkLabel bp.1 jp.1 up.1) up.2,
               s2.2.1 ++ jp.2.map fun up => warmRecord (mkLabel bp.1 jp.1 up.1) up.2,
               s2.2.2) :=
        funext fun s2 => funext fun jp => hinner bp s2 jp
      rw [hstep, foldl_triple]
    have hout :
        (fun (s : List MetricRecord × List MetricRecord × ResultTree)
             (bp : String × JsMap) =>
          bp.2.foldl
            (fun s2 jp =>
              jp.2.foldl
                (fun s3 up =>
                  (s3.1 ++ [coldRecord (mkLabel bp.1 jp.1 up.1) up.2],
                   s3.2.1 ++ [warmRecord (mkLabel bp.1 jp.1 up.1) up.2],
                   s3.2.2)) s2) s)
        = fun s bp =>
            (s.1 ++ bp.2.flatMap fun jp =>
                jp.2.map fun up => coldRecord (mkLabel bp.1 jp.1 up.1) up.2,
             s.2.1 ++ bp.2.flatMap fun jp =>
                jp.2.map fun up => warmRecord (mkLabel bp.1 jp.1 up.1) up.2,
             s.2.2) :=
      funext fun ss => funext fun bp => hmid ss bp
    rw [hout]
    dsimp only
    rw [foldl_triple]
    simp [calculateMetricsData]
  · unfold calculateCumulativeStatsSt
    dsimp only
    rw [foldl_pair, flatMap_singleton_map]
    simp [calculateCumulativeStats]

end BrowserPerf
